import Mathlib

/-!
Verification of the marimo frontend slice: session lifecycle
(connection/resume/restart/shutdown, from the specification of the session
core), the package-alert reducer (`src/frontend/src/core/alerts/state.ts`),
and the code-editor plugin's debounce behaviour
(`src/frontend/src/plugins/impl/CodeEditorPlugin.tsx`).
-/

/-! ## Package alerts (`core/alerts/state.ts`) -/

/-- One entry of `PackageInstallationStatus`: package name and its status. -/
structure PackageStatus where
  pkg : String
  status : String
deriving DecidableEq, BEq, Repr

/-- `MissingPackageAlert | InstallingPackageAlert` from `state.ts`. -/
inductive PackageAlert where
  | missing (packages : List String) (isolated : Bool)
  | installing (packages : List PackageStatus)
deriving DecidableEq, BEq, Repr

/-- `Identified<T> = { id: string } & T` applied to a package alert. -/
structure IdentifiedAlert where
  id : String
  alert : PackageAlert
deriving DecidableEq, BEq, Repr

/-- `AlertState` from `state.ts`: `packageAlert` is an identified alert or null. -/
structure AlertState where
  packageAlert : Option IdentifiedAlert
deriving DecidableEq, BEq, Repr

/-- The `addPackageAlert` reducer; the impure `generateUUID()` call is passed
in as the `freshId` argument. -/
def addPackageAlert (state : AlertState) (freshId : String)
    (alert : PackageAlert) : AlertState :=
  { state with packageAlert := some { id := freshId, alert := alert } }

/-- The `clearPackageAlert` reducer from `state.ts`:
`state.packageAlert !== null && state.packageAlert.id === id
  ? { ...state, packageAlert: null } : state`. -/
def clearPackageAlert (state : AlertState) (id : String) : AlertState :=
  match state.packageAlert with
  | some pa => if pa.id = id then { state with packageAlert := none } else state
  | none => state

/-! ## Code editor plugin (`CodeEditorPlugin.tsx`) -/

/-- The `debounce` prop: `boolean | number` (`z.union([z.boolean(), z.number()])`). -/
inductive DebounceSetting where
  | bool (b : Bool)
  | num (n : Nat)
deriving DecidableEq, BEq, Repr

/-- `z.union([z.boolean(), z.number()]).default(false)`: the value the
validator supplies when the host passes no `debounce`. -/
def validatorDefaultDebounce (given : Option DebounceSetting) : DebounceSetting :=
  match given with
  | some d => d
  | none => DebounceSetting.bool false

/-- `delay: Number.isFinite(props.debounce) ? props.debounce : 0` in the
`useDebounceControlledState` configuration. -/
def debounceDelay : DebounceSetting → Nat
  | DebounceSetting.num n => n
  | DebounceSetting.bool _ => 0

/-- What a change or blur event forwards to the host (`props.setValue`). -/
inductive HostEffect where
  | setValueNow (v : String)
  | setValueDebounced (delayMs : Nat) (v : String)
deriving DecidableEq, BEq, Repr

/-- The `handleChange` handler of `CodeEditorComponent`: always updates the
local state to the new value, then forwards it through the debounced setter
when `debounce` is a number, immediately when `debounce` is falsy, and not at
all when `debounce` is `true`. Returns (new local value, host effects). -/
def handleChange (debounce : DebounceSetting) (newValue : String) :
    String × List HostEffect :=
  (newValue,
    match debounce with
    | DebounceSetting.num n =>
        [HostEffect.setValueDebounced (debounceDelay (DebounceSetting.num n)) newValue]
    | DebounceSetting.bool false => [HostEffect.setValueNow newValue]
    | DebounceSetting.bool true => [])

/-- The blur handler: the component installs a `blur` dom-event handler
(calling `props.setValue(localValue)`) only when `props.debounce === true`. -/
def blurEffects (debounce : DebounceSetting) (localValue : String) :
    List HostEffect :=
  match debounce with
  | DebounceSetting.bool true => [HostEffect.setValueNow localValue]
  | _ => []

/-! ## Session lifecycle core

Modelled from the spec: the Connection State Machine, Session Lifecycle
Controller, Unsaved-Changes Guard and Session Identity Store of the session
core are not among the available source fragments (only their end-to-end test
is), so the definitions below follow the specification text (sections 3-7). -/

/-- Modelled from the spec: the `status` attribute of a Session
(`connecting`, `open`, `resuming`, `closed`, `kernelNotFound`). -/
inductive Status where
  | connecting
  | opened
  | resuming
  | closed
  | kernelNotFound
deriving DecidableEq, BEq, Repr

/-- Modelled from the spec: the session-scoped content the kernel retains and
the client renders: document text, the dirty marker, rendered cell outputs. -/
structure SessData where
  doc : String
  dirty : Bool
  outputs : List String
deriving DecidableEq, BEq, Repr

/-- Modelled from the spec: the initial placeholder outputs of a fresh or
freshly restarted session (the test's `'None'` placeholder). -/
def initialOutputs : List String := ["'None'"]

/-- Modelled from the spec: session data of a brand-new session. -/
def freshData : SessData :=
  { doc := "", dirty := false, outputs := initialOutputs }

/-- Modelled from the spec: the client's view of its session. -/
structure ClientSession where
  sessionId : Nat
  status : Status
  data : SessData
deriving DecidableEq, BEq, Repr

/-- Modelled from the spec: a live kernel process backing a session. -/
structure KernelProc where
  sessionId : Nat
  data : SessData
deriving DecidableEq, BEq, Repr

/-- Modelled from the spec: which confirmation dialog is pending
(the two-step commit `request -> confirm | cancel`). -/
inductive ConfirmKind where
  | restart
  | shutdown
deriving DecidableEq, BEq, Repr

/-- Modelled from the spec: control commands sent down the Transport
Channel (`{restart, shutdown}`). -/
inductive Control where
  | restart
  | shutdown
deriving DecidableEq, BEq, Repr

/-- Modelled from the spec: handshake responses; the server disambiguates
"existing session resumed", "new session created" and
"session id unknown / kernel gone". -/
inductive Handshake where
  | resumed (sid : Nat)
  | newSession (sid : Nat)
  | notFound
deriving DecidableEq, BEq, Repr

/-- Modelled from the spec: transient, non-blocking notices shown to the user. -/
inductive Notice where
  | reconnected
deriving DecidableEq, BEq, Repr

/-- Modelled from the spec: blocking prompts requiring a user decision. -/
inductive Prompt where
  | confirmRestart
  | confirmShutdown
  | downloadUnsavedChanges
deriving DecidableEq, BEq, Repr

/-- Modelled from the spec: the user's decision on the
"download unsaved changes?" choice. -/
inductive SaveChoice where
  | download
  | decline
deriving DecidableEq, BEq, Repr

/-- Modelled from the spec: everything the session core emits towards the
Transport Channel or the presentation layer in one step. -/
inductive Emit where
  | control (c : Control)
  | prompt (p : Prompt)
  | notice (n : Notice)
  | download (doc : String)
deriving DecidableEq, BEq, Repr

/-- Modelled from the spec: the whole system state: the client session, the
pending confirmation dialog, the Session Identity Store, the (possibly gone)
kernel process, and the server's id counter for new sessions. -/
structure SysState where
  client : ClientSession
  pendingConfirm : Option ConfirmKind
  store : Option Nat
  kernel : Option KernelProc
  nextId : Nat
deriving DecidableEq, BEq, Repr

/-- Modelled from the spec: the actions and external events driving the
session core. -/
inductive SessAction where
  | edit (d : String)
  | runCells (outs : List String)
  | saveAttempt (choice : SaveChoice)
  | requestRestart
  | requestShutdown
  | confirm
  | cancel
  | channelError
  | rehandshake
  | reload
  | startNewSession
deriving DecidableEq, BEq, Repr

/-- Modelled from the spec: the handshake response as a function of the
stored identifier and the kernel's existence: an absent identifier requests a
new session; a stored identifier matching a live kernel resumes; otherwise
the session id is unknown / the kernel is gone. -/
def handshakeFor : Option Nat → Option KernelProc → Nat → Handshake
  | none, _, nid => Handshake.newSession nid
  | some id, some k, _ =>
      if k.sessionId = id then Handshake.resumed id else Handshake.notFound
  | some _, none, _ => Handshake.notFound

/-- Modelled from the spec: one atomic transition of the session core.
Returns the new system state and the emitted control messages, prompts,
notices and download artifacts. Edits set the dirty marker; saving clears it
only on confirmed persistence; restart and shutdown follow the two-step
commit; after a confirmed shutdown a dirty save attempt presents the
"download unsaved changes?" choice; reloads and re-handshakes resume via the
Session Identity Store; only `startNewSession` clears the store. -/
def step (s : SysState) : SessAction → SysState × List Emit
  | SessAction.edit d =>
      let data := { s.client.data with doc := d, dirty := true }
      if s.client.status = Status.opened then
        ({ s with
            client := { s.client with data := data }
            kernel := (match s.kernel with
              | some k =>
                  if k.sessionId = s.client.sessionId then
                    some { k with data := data }
                  else some k
              | none => none) }, [])
      else
        ({ s with client := { s.client with data := data } }, [])
  | SessAction.runCells outs =>
      let data := { s.client.data with outputs := outs }
      if s.client.status = Status.opened then
        ({ s with
            client := { s.client with data := data }
            kernel := (match s.kernel with
              | some k =>
                  if k.sessionId = s.client.sessionId then
                    some { k with data := data }
                  else some k
              | none => none) }, [])
      else (s, [])
  | SessAction.saveAttempt choice =>
      if s.client.status = Status.kernelNotFound then
        if s.client.data.dirty then
          match choice with
          | SaveChoice.download =>
              (s, [Emit.prompt Prompt.downloadUnsavedChanges,
                   Emit.download s.client.data.doc])
          | SaveChoice.decline =>
              (s, [Emit.prompt Prompt.downloadUnsavedChanges])
        else (s, [])
      else if s.client.status = Status.opened then
        let data := { s.client.data with dirty := false }
        ({ s with
            client := { s.client with data := data }
            kernel := (match s.kernel with
              | some k =>
                  if k.sessionId = s.client.sessionId then
                    some { k with data := data }
                  else some k
              | none => none) }, [])
      else (s, [])
  | SessAction.requestRestart =>
      if s.pendingConfirm = none then
        ({ s with pendingConfirm := some ConfirmKind.restart },
         [Emit.prompt Prompt.confirmRestart])
      else (s, [])
  | SessAction.requestShutdown =>
      if s.pendingConfirm = none then
        ({ s with pendingConfirm := some ConfirmKind.shutdown },
         [Emit.prompt Prompt.confirmShutdown])
      else (s, [])
  | SessAction.confirm =>
      match s.pendingConfirm with
      | some ConfirmKind.restart =>
          match s.kernel with
          | some k =>
              if k.sessionId = s.client.sessionId then
                ({ s with
                    pendingConfirm := none
                    client := { s.client with
                      data := { s.client.data with outputs := initialOutputs } }
                    kernel := some { k with
                      data := { k.data with outputs := initialOutputs } } },
                 [Emit.control Control.restart])
              else ({ s with pendingConfirm := none }, [])
          | none => ({ s with pendingConfirm := none }, [])
      | some ConfirmKind.shutdown =>
          match s.kernel with
          | some k =>
              if k.sessionId = s.client.sessionId then
                ({ s with
                    pendingConfirm := none
                    kernel := none
                    client := { s.client with status := Status.kernelNotFound } },
                 [Emit.control Control.shutdown])
              else ({ s with pendingConfirm := none }, [])
          | none => ({ s with pendingConfirm := none }, [])
      | none => (s, [])
  | SessAction.cancel => ({ s with pendingConfirm := none }, [])
  | SessAction.channelError =>
      if s.client.status = Status.opened then
        ({ s with client := { s.client with status := Status.resuming } }, [])
      else (s, [])
  | SessAction.rehandshake =>
      if s.client.status = Status.resuming then
        match handshakeFor s.store s.kernel s.nextId with
        | Handshake.resumed sid =>
            match s.kernel with
            | some k =>
                ({ s with client :=
                    { sessionId := sid, status := Status.opened, data := k.data } },
                 [Emit.notice Notice.reconnected])
            | none => (s, [])
        | Handshake.newSession sid =>
            ({ s with
                client :=
                  { sessionId := sid, status := Status.opened, data := freshData }
                store := some sid
                kernel := some { sessionId := sid, data := freshData }
                nextId := s.nextId + 1 }, [])
        | Handshake.notFound =>
            ({ s with client :=
                { s.client with status := Status.kernelNotFound } }, [])
      else (s, [])
  | SessAction.reload =>
      match handshakeFor s.store s.kernel s.nextId with
      | Handshake.resumed sid =>
          match s.kernel with
          | some k =>
              ({ s with
                  pendingConfirm := none
                  client :=
                    { sessionId := sid, status := Status.opened, data := k.data } },
               [Emit.notice Notice.reconnected])
          | none => (s, [])
      | Handshake.newSession sid =>
          ({ s with
              pendingConfirm := none
              client :=
                { sessionId := sid, status := Status.opened, data := freshData }
              store := some sid
              kernel := some { sessionId := sid, data := freshData }
              nextId := s.nextId + 1 }, [])
      | Handshake.notFound =>
          ({ s with
              pendingConfirm := none
              client := { s.client with
                status := Status.kernelNotFound
                data := freshData } }, [])
  | SessAction.startNewSession =>
      ({ s with store := none, pendingConfirm := none }, [])

/-- Modelled from the spec: running a trace of actions, accumulating emissions. -/
def run (s : SysState) : List SessAction → SysState × List Emit
  | [] => (s, [])
  | a :: rest =>
      let p := step s a
      let q := run p.1 rest
      (q.1, p.2 ++ q.2)

/-- Modelled from the spec: the backoff policy: the delay before attempt `k`
grows monotonically (exponentially here) and is capped. -/
def backoffDelay (base cap k : Nat) : Nat := min (base * 2 ^ k) cap

/-- Modelled from the spec: the outcome of one connection attempt. -/
inductive AttemptOutcome where
  | success (h : Handshake)
  | failure
deriving DecidableEq, BEq, Repr

/-- Modelled from the spec: the status a successful re-handshake resolves to:
`resumed` and `newSession` open the connection, `notFound` is terminal. -/
def statusOfHandshake : Handshake → Status
  | Handshake.resumed _ => Status.opened
  | Handshake.newSession _ => Status.opened
  | Handshake.notFound => Status.kernelNotFound

/-- Modelled from the spec: the stable terminal statuses the reconnect loop
may end in: open, closed, or kernel-not-found. -/
def stableTerminal : Status → Bool
  | Status.opened => true
  | Status.closed => true
  | Status.kernelNotFound => true
  | Status.connecting => false
  | Status.resuming => false

/-- Modelled from the spec: the bounded reconnect loop: at most `fuel` more
attempts starting from attempt number `k`; a successful handshake resolves
the status, exhausting the attempt budget closes the connection. -/
def reconnectLoop (outcome : Nat → AttemptOutcome) : Nat → Nat → Status
  | 0, _ => Status.closed
  | fuel + 1, k =>
      match outcome k with
      | AttemptOutcome.success h => statusOfHandshake h
      | AttemptOutcome.failure => reconnectLoop outcome fuel (k + 1)

/-- Session data with the scenario's rendered outputs `12345` / `54321`. -/
def runDataA : SessData :=
  { doc := "import marimo", dirty := false, outputs := ["12345", "54321"] }

/-- Session data with unsaved edits (dirty marker set). -/
def dirtyDataA : SessData :=
  { doc := "1234", dirty := true, outputs := ["12345", "54321"] }

/-- A connected system state whose kernel is live and in sync. -/
def sysLiveA : SysState :=
  { client := { sessionId := 7, status := Status.opened, data := runDataA }
    pendingConfirm := none
    store := some 7
    kernel := some { sessionId := 7, data := runDataA }
    nextId := 8 }

/-- A connected, dirty system state whose kernel is live and in sync. -/
def sysLiveDirtyA : SysState :=
  { client := { sessionId := 7, status := Status.opened, data := dirtyDataA }
    pendingConfirm := none
    store := some 7
    kernel := some { sessionId := 7, data := dirtyDataA }
    nextId := 8 }

/-- The state after a confirmed shutdown with unsaved edits: the kernel is
gone and the client status is kernel-not-found. -/
def sysShutdownDirtyA : SysState :=
  { client := { sessionId := 7, status := Status.kernelNotFound, data := dirtyDataA }
    pendingConfirm := none
    store := some 7
    kernel := none
    nextId := 8 }

/-- An alert state holding an identified missing-package alert with id `a`. -/
def alertStateA : AlertState :=
  { packageAlert := some { id := "a", alert := PackageAlert.missing ["numpy"] false } }

/-! ## Theorems -/

/-- C9: `clearPackageAlert` returns the state with `packageAlert` null
exactly when a non-null alert carrying the given id is present; in every
other case (no alert, or a mismatched id) it returns the state unchanged, so
clearing with a stale id never removes a newer alert. -/
theorem clearPackageAlert_clears_iff_id_matches (s : AlertState) (id : String) :
    ((∃ pa, s.packageAlert = some pa ∧ pa.id = id) →
      clearPackageAlert s id = { s with packageAlert := none }) ∧
    ((∀ pa, s.packageAlert = some pa → pa.id ≠ id) →
      clearPackageAlert s id = s) := by
  constructor
  · rintro ⟨pa, hpa, hid⟩
    simp [clearPackageAlert, hpa, hid]
  · intro h
    cases hpa : s.packageAlert with
    | none => simp [clearPackageAlert, hpa]
    | some pa => simp [clearPackageAlert, hpa, h pa hpa]

theorem clearPackageAlert_clears_iff_id_matches_witness :
    clearPackageAlert alertStateA "a" = { alertStateA with packageAlert := none } ∧
    clearPackageAlert alertStateA "b" = alertStateA := by
  constructor
  · exact (clearPackageAlert_clears_iff_id_matches alertStateA "a").1
      ⟨{ id := "a", alert := PackageAlert.missing ["numpy"] false }, rfl, rfl⟩
  · refine (clearPackageAlert_clears_iff_id_matches alertStateA "b").2 ?_
    intro pa hpa
    injection hpa with h
    rw [← h]
    decide

/-- C10: the code editor's propagation of an edit to the host depends only on
the `debounce` setting: with the validator default (`false`) every change
calls `setValue` immediately; with a number `n` changes go through a debounce
of `n` milliseconds; with `true` changes only update local state and
`setValue` fires with the latest local value only on blur (the blur handler
is installed for no other setting). -/
theorem codeEditor_debounce_modes :
    (∀ v : String, handleChange (DebounceSetting.bool false) v
        = (v, [HostEffect.setValueNow v])) ∧
    (∀ (n : Nat) (v : String), handleChange (DebounceSetting.num n) v
        = (v, [HostEffect.setValueDebounced n v])) ∧
    (∀ v : String, handleChange (DebounceSetting.bool true) v = (v, [])) ∧
    (∀ lv : String, blurEffects (DebounceSetting.bool true) lv
        = [HostEffect.setValueNow lv]) ∧
    (∀ d : DebounceSetting, d ≠ DebounceSetting.bool true →
      ∀ lv : String, blurEffects d lv = []) ∧
    validatorDefaultDebounce none = DebounceSetting.bool false := by
  refine ⟨fun v => rfl, fun n v => rfl, fun v => rfl, fun lv => rfl, ?_, rfl⟩
  intro d hd lv
  match d with
  | DebounceSetting.bool true => exact absurd rfl hd
  | DebounceSetting.bool false => rfl
  | DebounceSetting.num n => rfl

theorem codeEditor_debounce_modes_witness :
    blurEffects (DebounceSetting.num 250) "text" = [] :=
  codeEditor_debounce_modes.2.2.2.2.1 (DebounceSetting.num 250) (by decide) "text"

/-- C1: reloading the page while the kernel backing the stored session is
still live resumes that session: the previously rendered outputs (and all
session data) are unchanged, the session identifier is unchanged, and the
only emission is the transient "reconnected to an existing session" notice
(the view is not reset). -/
theorem reload_resumes_live_session (s : SysState) (k : KernelProc)
    (hk : s.kernel = some k)
    (hsid : k.sessionId = s.client.sessionId)
    (hstore : s.store = some s.client.sessionId)
    (hsync : k.data = s.client.data) :
    (step s SessAction.reload).1.client.data.outputs = s.client.data.outputs ∧
    (step s SessAction.reload).1.client.sessionId = s.client.sessionId ∧
    (step s SessAction.reload).1.client.data = s.client.data ∧
    (step s SessAction.reload).2 = [Emit.notice Notice.reconnected] := by
  simp [step, handshakeFor, hk, hstore, hsid, hsync]

theorem reload_resumes_live_session_witness :
    (step sysLiveA SessAction.reload).1.client.data.outputs
        = sysLiveA.client.data.outputs ∧
    (step sysLiveA SessAction.reload).1.client.sessionId
        = sysLiveA.client.sessionId ∧
    (step sysLiveA SessAction.reload).1.client.data = sysLiveA.client.data ∧
    (step sysLiveA SessAction.reload).2 = [Emit.notice Notice.reconnected] :=
  reload_resumes_live_session sysLiveA { sessionId := 7, data := runDataA }
    rfl rfl rfl rfl

/-- C2: in a post-shutdown state (status kernel-not-found) with the dirty
marker set, a save attempt emits the "Download unsaved changes?" prompt
exactly once, leaves the whole state (in particular the unsaved edits)
untouched under either choice, and the download choice emits the edited
document as a download artifact. -/
theorem save_after_shutdown_prompts_once (s : SysState) (c : SaveChoice)
    (hstatus : s.client.status = Status.kernelNotFound)
    (hdirty : s.client.data.dirty = true) :
    (step s (SessAction.saveAttempt c)).2.count
        (Emit.prompt Prompt.downloadUnsavedChanges) = 1 ∧
    (step s (SessAction.saveAttempt c)).1 = s ∧
    (c = SaveChoice.download →
      Emit.download s.client.data.doc ∈ (step s (SessAction.saveAttempt c)).2) := by
  cases c <;>
    simp [step, hstatus, hdirty, List.count_cons, List.count_nil,
      show ∀ d : String,
          (Emit.download d == Emit.prompt Prompt.downloadUnsavedChanges) = false
        from fun _ => rfl,
      show (Emit.prompt Prompt.downloadUnsavedChanges
          == Emit.prompt Prompt.downloadUnsavedChanges) = true from rfl]

theorem save_after_shutdown_prompts_once_witness :
    (step sysShutdownDirtyA (SessAction.saveAttempt SaveChoice.download)).2.count
        (Emit.prompt Prompt.downloadUnsavedChanges) = 1 ∧
    (step sysShutdownDirtyA (SessAction.saveAttempt SaveChoice.download)).1
        = sysShutdownDirtyA ∧
    (SaveChoice.download = SaveChoice.download →
      Emit.download sysShutdownDirtyA.client.data.doc
        ∈ (step sysShutdownDirtyA (SessAction.saveAttempt SaveChoice.download)).2) :=
  save_after_shutdown_prompts_once sysShutdownDirtyA SaveChoice.download rfl rfl

/-- C4: a requested and then confirmed kernel restart resets the rendered
cell outputs back to the initial placeholder (`'None'`) on both the client
and the kernel, while the session identifier and the identity store are
preserved unchanged. -/
theorem restart_resets_outputs_preserves_id (s : SysState) (k : KernelProc)
    (hpc : s.pendingConfirm = none)
    (hk : s.kernel = some k)
    (hsid : k.sessionId = s.client.sessionId) :
    (step (step s SessAction.requestRestart).1 SessAction.confirm).1.client.data.outputs
        = initialOutputs ∧
    (step (step s SessAction.requestRestart).1 SessAction.confirm).1.client.sessionId
        = s.client.sessionId ∧
    (step (step s SessAction.requestRestart).1 SessAction.confirm).1.store
        = s.store := by
  simp [step, hpc, hk, hsid]

theorem restart_resets_outputs_preserves_id_witness :
    (step (step sysLiveA SessAction.requestRestart).1 SessAction.confirm).1.client.data.outputs
        = initialOutputs ∧
    (step (step sysLiveA SessAction.requestRestart).1 SessAction.confirm).1.client.sessionId
        = sysLiveA.client.sessionId ∧
    (step (step sysLiveA SessAction.requestRestart).1 SessAction.confirm).1.store
        = sysLiveA.store :=
  restart_resets_outputs_preserves_id sysLiveA { sessionId := 7, data := runDataA }
    rfl rfl rfl

/-- C5: a requested and then confirmed shutdown moves the connection status
to `kernelNotFound` (the channel reports the kernel missing), which is
distinct from the plain `closed` state, so the UI can tell an intentional
stop apart from a network failure. -/
theorem shutdown_yields_kernelNotFound (s : SysState) (k : KernelProc)
    (hpc : s.pendingConfirm = none)
    (hk : s.kernel = some k)
    (hsid : k.sessionId = s.client.sessionId) :
    (step (step s SessAction.requestShutdown).1 SessAction.confirm).1.client.status
        = Status.kernelNotFound ∧
    Status.kernelNotFound ≠ Status.closed := by
  simp [step, hpc, hk, hsid]

theorem shutdown_yields_kernelNotFound_witness :
    (step (step sysLiveDirtyA SessAction.requestShutdown).1 SessAction.confirm).1.client.status
        = Status.kernelNotFound ∧
    Status.kernelNotFound ≠ Status.closed :=
  shutdown_yields_kernelNotFound sysLiveDirtyA { sessionId := 7, data := dirtyDataA }
    rfl rfl rfl

/-- C6: for a session with unsaved edits (dirty marker set), a page reload
restores the dirty marker and the last rendered outputs exactly when the
handshake reports `resumed` with the same session identifier; under every
other handshake outcome they are not restored. -/
theorem reload_restores_iff_resumed (s : SysState)
    (hdirty : s.client.data.dirty = true)
    (hstore : s.store = some s.client.sessionId)
    (hsync : ∀ k, s.kernel = some k → k.data = s.client.data) :
    ((step s SessAction.reload).1.client.data.dirty = s.client.data.dirty ∧
     (step s SessAction.reload).1.client.data.outputs = s.client.data.outputs)
      ↔ handshakeFor s.store s.kernel s.nextId
          = Handshake.resumed s.client.sessionId := by
  rcases hk : s.kernel with _ | k
  · simp [step, handshakeFor, hstore, hk, hdirty, freshData]
  · by_cases hsid : k.sessionId = s.client.sessionId
    · have hd := hsync k hk
      simp [step, handshakeFor, hstore, hk, hsid, hd]
    · simp [step, handshakeFor, hstore, hk, hsid, hdirty, freshData]

theorem reload_restores_iff_resumed_witness :
    ((step sysLiveDirtyA SessAction.reload).1.client.data.dirty
        = sysLiveDirtyA.client.data.dirty ∧
     (step sysLiveDirtyA SessAction.reload).1.client.data.outputs
        = sysLiveDirtyA.client.data.outputs)
      ↔ handshakeFor sysLiveDirtyA.store sysLiveDirtyA.kernel sysLiveDirtyA.nextId
          = Handshake.resumed sysLiveDirtyA.client.sessionId :=
  reload_restores_iff_resumed sysLiveDirtyA rfl rfl
    (fun k hk => by injection hk with h; rw [← h]; rfl)

/-- With a stored identifier present, the handshake never reports a brand-new
session: it either resumes or reports the kernel missing. -/
theorem handshakeFor_some_ne_newSession (id : Nat) (k : Option KernelProc)
    (n sid : Nat) :
    handshakeFor (some id) k n ≠ Handshake.newSession sid := by
  cases k with
  | none => simp [handshakeFor]
  | some kp =>
      simp only [handshakeFor]
      split <;> simp

/-- C7: the Session Identity Store is cleared only by the explicit
start-new-session action; every other transition (edits, saves, restart and
shutdown flows, disconnects, re-handshakes, page reloads) preserves the
stored identifier value. -/
theorem store_cleared_only_by_new_session :
    (∀ (s : SysState) (a : SessAction) (id : Nat),
      s.store = some id → a ≠ SessAction.startNewSession →
      (step s a).1.store = some id) ∧
    (∀ s : SysState, (step s SessAction.startNewSession).1.store = none) := by
  constructor
  · intro s a id hid ha
    cases a <;> simp only [step] <;> (repeat' split) <;>
      simp_all [handshakeFor_some_ne_newSession]
  · intro s
    simp [step]

theorem store_cleared_only_by_new_session_witness :
    (step sysLiveA SessAction.reload).1.store = some 7 ∧
    (step sysLiveA SessAction.startNewSession).1.store = none :=
  ⟨store_cleared_only_by_new_session.1 sysLiveA SessAction.reload 7 rfl (by decide),
   store_cleared_only_by_new_session.2 sysLiveA⟩

/-- C8: the backoff delay before attempt `k+1` is at least the delay before
attempt `k`, every delay is capped by `cap`, and the bounded reconnect loop
always terminates in a stable terminal status (open, closed or
kernel-not-found) instead of retrying forever. -/
theorem backoff_monotone_capped_and_loop_terminates :
    (∀ base cap k : Nat,
      backoffDelay base cap k ≤ backoffDelay base cap (k + 1)) ∧
    (∀ base cap k : Nat, backoffDelay base cap k ≤ cap) ∧
    (∀ (outcome : Nat → AttemptOutcome) (maxAttempts start : Nat),
      stableTerminal (reconnectLoop outcome maxAttempts start) = true) := by
  refine ⟨?_, ?_, ?_⟩
  · intro base cap k
    exact min_le_min
      (Nat.mul_le_mul_left base
        (Nat.pow_le_pow_right (by norm_num) (Nat.le_succ k))) le_rfl
  · intro base cap k
    exact min_le_right _ _
  · intro outcome maxAttempts
    induction maxAttempts with
    | zero => intro start; rfl
    | succ n ih =>
        intro start
        simp only [reconnectLoop]
        cases outcome start with
        | success h => cases h <;> rfl
        | failure => exact ih (start + 1)

/-- Unfolding `run` on a cons trace. -/
theorem run_cons (s : SysState) (a : SessAction) (rest : List SessAction) :
    run s (a :: rest)
      = ((run (step s a).1 rest).1, (step s a).2 ++ (run (step s a).1 rest).2) :=
  rfl

/-- A restart control message is emitted by a single step only on the confirm
action, and only while a restart confirmation is pending. -/
theorem restart_emit_step (s : SysState) (a : SessAction)
    (h : Emit.control Control.restart ∈ (step s a).2) :
    a = SessAction.confirm ∧ s.pendingConfirm = some ConfirmKind.restart := by
  cases a <;> simp only [step] at h <;> (repeat' split at h) <;> simp_all

/-- If a trace emits the restart control message, the trace contains a
confirm action. -/
theorem confirm_mem_of_restart_emitted (acts : List SessAction) :
    ∀ s : SysState, Emit.control Control.restart ∈ (run s acts).2 →
      SessAction.confirm ∈ acts := by
  induction acts with
  | nil => intro s h; simp [run] at h
  | cons a rest ih =>
      intro s h
      rw [run_cons] at h
      rcases List.mem_append.mp h with h1 | h2
      · rcases restart_emit_step s a h1 with ⟨rfl, _⟩
        exact List.mem_cons_self _ _
      · exact List.mem_cons_of_mem _ (ih _ h2)

/-- No action other than `requestRestart` can make a restart confirmation
pending. -/
theorem step_pending_not_restart (s : SysState) (a : SessAction)
    (hs : s.pendingConfirm ≠ some ConfirmKind.restart)
    (ha : a ≠ SessAction.requestRestart) :
    (step s a).1.pendingConfirm ≠ some ConfirmKind.restart := by
  cases a <;> simp only [step] <;> (repeat' split) <;> simp_all

/-- From a state with no pending restart confirmation, a trace that emits the
restart control message splits into a part containing the restart request
followed by a part containing the confirm. -/
theorem restart_requires_request_then_confirm (acts : List SessAction) :
    ∀ s : SysState, s.pendingConfirm ≠ some ConfirmKind.restart →
    Emit.control Control.restart ∈ (run s acts).2 →
    ∃ pre post, acts = pre ++ post ∧ SessAction.requestRestart ∈ pre ∧
      SessAction.confirm ∈ post := by
  induction acts with
  | nil => intro s _ h; simp [run] at h
  | cons a rest ih =>
      intro s hs h
      rw [run_cons] at h
      rcases List.mem_append.mp h with h1 | h2
      · rcases restart_emit_step s a h1 with ⟨rfl, hpc⟩
        exact absurd hpc hs
      · by_cases hr : a = SessAction.requestRestart
        · subst hr
          exact ⟨[SessAction.requestRestart], rest, rfl,
            List.mem_cons_self _ _, confirm_mem_of_restart_emitted rest _ h2⟩
        · obtain ⟨pre, post, heq, hpre, hpost⟩ :=
            ih (step s a).1 (step_pending_not_restart s a hs hr) h2
          exact ⟨a :: pre, post, by simp [heq],
            List.mem_cons_of_mem _ hpre, hpost⟩

/-- C3: along every trace started with no pending dialog, a restart control
message is sent only if an explicit confirm step occurred after the restart
request; and requesting a restart and immediately cancelling leaves the whole
session state byte-for-byte identical to the state before the request. -/
theorem restart_two_step_commit :
    (∀ (s : SysState) (acts : List SessAction),
      s.pendingConfirm = none →
      Emit.control Control.restart ∈ (run s acts).2 →
      ∃ pre post, acts = pre ++ post ∧ SessAction.requestRestart ∈ pre ∧
        SessAction.confirm ∈ post) ∧
    (∀ s : SysState, s.pendingConfirm = none →
      (step (step s SessAction.requestRestart).1 SessAction.cancel).1 = s) := by
  constructor
  · intro s acts hnone h
    exact restart_requires_request_then_confirm acts s (by simp [hnone]) h
  · intro s hnone
    have h1 : (step s SessAction.requestRestart).1
        = { s with pendingConfirm := some ConfirmKind.restart } := by
      simp [step, hnone]
    rw [h1]
    show ({ s with pendingConfirm := none } : SysState) = s
    rw [← hnone]

theorem restart_two_step_commit_witness :
    (∃ pre post,
      ([SessAction.requestRestart, SessAction.confirm] : List SessAction)
          = pre ++ post ∧
      SessAction.requestRestart ∈ pre ∧ SessAction.confirm ∈ post) ∧
    (step (step sysLiveA SessAction.requestRestart).1 SessAction.cancel).1
        = sysLiveA :=
  ⟨restart_two_step_commit.1 sysLiveA
      [SessAction.requestRestart, SessAction.confirm] rfl
      (by simp [run, step, sysLiveA, runDataA]),
   restart_two_step_commit.2 sysLiveA rfl⟩
